import Mathlib

/-!
# Verification of the warehouse real-time processing pipeline

A shallow embedding, in Lean 4, of the parts of the repository
`Michal-Suhak/real-time-processing` that the specification's testable
properties talk about:

* `src/processing-pipeline/src/processors/inventory_processor.py`
  (`InventoryProcessor.process`),
* `src/processing-pipeline/src/aggregators/base_aggregator.py` (`TimeWindow`),
* `src/processing-pipeline/src/enrichers/inventory_enricher.py`
  (`InventoryEnricher.enrich`),
* `src/processing-pipeline/src/anomaly_detection/base_detector.py` and
  `inventory_anomaly_detector.py` (`InventoryAnomalyDetector.detect`),
* `src/monitoring/alerting/alert_manager.py` (`AlertManager`),
* `src/processing-pipeline/src/storage/storage_manager.py` (`StorageManager`).

Modelling conventions, used throughout:

* Python numbers (ints and IEEE floats) are modelled as rationals `ℚ`.
  The operations the source applies to them (`abs`, negation, `+`, `*`, `/`,
  comparisons, `min`, `max`) are exact in this range of use, so `ℚ` is a
  faithful carrier; floating-point rounding is not modelled.
* Python `datetime` instants are modelled as rational epoch seconds (UTC).
  `hour` and `weekday()` are derived arithmetically from the epoch;
  `datetime.fromtimestamp` is total in this model (no `OverflowError`).
* Python dicts that the source treats as records are modelled as structures
  whose fields are `Option`-typed (a `none` field models an absent key).
* Python's `hash(...)` (process-seeded for strings) is an explicit parameter
  `pyhash` of every definition that uses it.
* Library parsers the source calls (`datetime.fromisoformat`) are abstracted
  as a function parameter; `float(str)` is modelled concretely below.
* `structlog` logging calls are side-effect free for the data flow and are
  dropped.
-/

namespace RTP

/-- A JSON scalar value as it can appear in a decoded message field.
Composite JSON values (arrays/objects) are collapsed into `compound`, since
every code path modelled here treats them uniformly (in particular, Python's
`float()` raises `TypeError` on any of them, regardless of content). -/
inductive JVal where
  | null
  | bool (b : Bool)
  | num (q : ℚ)
  | str (s : String)
  | compound
  deriving DecidableEq, Repr

/-- The two exception kinds Python's `float(x)` can raise:
`TypeError` for `None`/lists/dicts, `ValueError` for an unparsable string. -/
inductive PyErr where
  | typeError
  | valueError
  deriving DecidableEq, Repr

/-- Value of a nonempty digit string, most significant first. -/
def digitsVal (cs : List Char) : ℕ :=
  cs.foldl (fun a c => 10 * a + (c.toNat - 48)) 0

/-- Optional exponent suffix of a Python float literal: empty, or
`(e|E)(+|-)?digits` consuming the whole remainder. -/
def parseExpPart (m : ℚ) : List Char → Option ℚ
  | [] => some m
  | e :: rest =>
    if e = 'e' ∨ e = 'E' then
      let sgnRest : ℤ × List Char :=
        match rest with
        | '+' :: r => (1, r)
        | '-' :: r => (-1, r)
        | r => (1, r)
      let ds := sgnRest.2.takeWhile Char.isDigit
      let rest3 := sgnRest.2.dropWhile Char.isDigit
      if ds.isEmpty ∨ ¬ rest3.isEmpty then none
      else some (m * (10 : ℚ) ^ (sgnRest.1 * (digitsVal ds : ℤ)))
    else none

/-- Unsigned part of a Python float literal: `digits`, `digits.digits?`,
`.digits`, each with an optional exponent. -/
def parseFloatChars (cs : List Char) : Option ℚ :=
  let ip := cs.takeWhile Char.isDigit
  let rest := cs.dropWhile Char.isDigit
  match rest with
  | [] => if ip.isEmpty then none else some (digitsVal ip)
  | '.' :: rest2 =>
    let fp := rest2.takeWhile Char.isDigit
    let rest3 := rest2.dropWhile Char.isDigit
    if ip.isEmpty ∧ fp.isEmpty then none
    else parseExpPart ((digitsVal ip : ℚ) + (digitsVal fp : ℚ) / (10 : ℚ) ^ fp.length) rest3
  | c :: _ =>
    if c = 'e' ∨ c = 'E' then
      if ip.isEmpty then none else parseExpPart (digitsVal ip) rest
    else none

/-- Python `str.strip()` of surrounding whitespace, on character lists. -/
def trimChars (cs : List Char) : List Char :=
  ((cs.dropWhile Char.isWhitespace).reverse.dropWhile Char.isWhitespace).reverse

/-- Model of Python `float(s)` for a string argument: surrounding whitespace
stripped, optional sign, then a decimal literal with optional fraction and
exponent. (`inf`/`nan` literals and digit-group underscores are not modelled;
they never occur in the repository's data.) `none` models `ValueError`. -/
def pyFloatOfStr (s : String) : Option ℚ :=
  match trimChars s.toList with
  | '+' :: rest => parseFloatChars rest
  | '-' :: rest => (parseFloatChars rest).map Neg.neg
  | cs => parseFloatChars cs

/-- Model of Python `float(x)` on a JSON value: numbers pass through, `bool`
is an `int` instance (`float(True) = 1.0`), strings are parsed, and `None`
or a composite raises `TypeError`. -/
def pyFloat : JVal → Except PyErr ℚ
  | .num q => .ok q
  | .bool b => .ok (if b then 1 else 0)
  | .str s =>
    match pyFloatOfStr s with
    | some q => .ok q
    | none => .error .valueError
  | .null => .error .typeError
  | .compound => .error .typeError

/-- The fields of a raw inventory event that `InventoryProcessor.process`
reads. A `none` field models a key absent from the JSON dict. Other input
keys are copied through unchanged by the source and are not modelled. -/
structure RawEvent where
  action : Option JVal
  quantity : Option JVal
  unit_price : Option JVal
  timestamp : Option JVal
  item_id : Option String
  location_id : Option String
  deriving DecidableEq, Repr

/-- UTC hour of a rational epoch instant, as `datetime.fromtimestamp(t, utc).hour`.
Python's floor semantics on negative instants are matched by `Int.fdiv` and
the nonnegative remainder `%`. -/
def hourOfEpoch (t : ℚ) : ℤ :=
  (Int.fdiv ⌊t⌋ 3600) % 24

/-- UTC weekday (`0 = Monday .. 6 = Sunday`) of a rational epoch instant,
as `datetime.weekday()`; epoch day 0 (1970-01-01) was a Thursday (= 3). -/
def weekdayOfEpoch (t : ℚ) : ℤ :=
  (Int.fdiv ⌊t⌋ 86400 + 3) % 7

/-- `InventoryProcessor._get_shift`. -/
def getShift (hour : ℤ) : String :=
  if 6 ≤ hour ∧ hour < 14 then "morning"
  else if 14 ≤ hour ∧ hour < 22 then "afternoon"
  else "night"

/-- The dict built by `InventoryProcessor._get_business_context`. -/
structure BusinessCtx where
  hour : ℤ
  day_of_week : ℤ
  is_business_hours : Bool
  is_weekend : Bool
  shift : String
  deriving DecidableEq, Repr

/-- `InventoryProcessor._get_business_context`. -/
def getBusinessContext (t : ℚ) : BusinessCtx :=
  let h := hourOfEpoch t
  let d := weekdayOfEpoch t
  { hour := h
    day_of_week := d
    is_business_hours := decide (8 ≤ h ∧ h ≤ 18 ∧ d < 5)
    is_weekend := decide (5 ≤ d)
    shift := getShift h }

/-- Epoch second of `datetime.min` (0001-01-01T00:00:00 UTC), the lower
bound of Python's `datetime` range. -/
def minDatetimeEpoch : ℚ := -62135596800

/-- Exclusive epoch-second upper bound of Python's `datetime` range
(10000-01-01T00:00:00 UTC; `datetime.max` is the microsecond before it). -/
def maxDatetimeEpochEx : ℚ := 253402300800

/-- Model of `datetime.fromtimestamp(t, tz=timezone.utc)` on a (finite)
number: returns the instant for an epoch value inside the representable
`datetime` range and raises for one outside it (a `ValueError`
"year … is out of range"; the platform `OverflowError` raised for values
beyond `time_t` is not distinguished from it here). -/
def fromtimestampE (t : ℚ) : Except PyErr ℚ :=
  if minDatetimeEpoch ≤ t ∧ t < maxDatetimeEpochEx then .ok t
  else .error .valueError

/-- `InventoryProcessor._parse_timestamp`, with `datetime.fromisoformat`
abstracted as the partial parser `iso` and the wall clock as `now`.
A numeric value (a Python `bool` is an `int` instance) goes through
`fromtimestamp` *unguarded*, so an out-of-range epoch raises out of
`process` (source lines 74-75); a string tries ISO format, then
`float` + `fromtimestamp` inside `except ValueError:` handlers, so a
failing string falls back to `now` (an unmodelled `inf`/`nan` literal, or
a platform `OverflowError` past `time_t`, excepted — see `pyFloatOfStr`
and `fromtimestampE`); anything else falls through to `now`. -/
def parseTimestampJ (iso : String → Option ℚ) (now : ℚ) :
    Option JVal → Except PyErr ℚ
  | some (.num q) => fromtimestampE q
  | some (.bool b) => fromtimestampE (if b then 1 else 0)
  | some (.str s) =>
    match iso s with
    | some t => .ok t
    | none =>
      match pyFloatOfStr s with
      | some f =>
        match fromtimestampE f with
        | .ok t => .ok t
        | .error _ => .ok now
      | none => .ok now
  | some .null => .ok now
  | some .compound => .ok now
  | none => .ok now

/-- The string part of `action_mappings.get`: `stock_in ↦ inbound`,
`stock_out ↦ outbound` (`adjustment` and `transfer` map to themselves),
any other string passes through. -/
def actionMapGet (s : String) : String :=
  if s = "stock_in" then "inbound"
  else if s = "stock_out" then "outbound"
  else s

/-- `self.action_mappings.get(action, action)` (source line 29): known
string actions are mapped, other hashable values pass through unchanged,
and an unhashable value (a JSON array/object) raises `TypeError` from the
dict lookup. -/
def normalizeActionE : JVal → Except PyErr JVal
  | .compound => .error .typeError
  | .str s => .ok (.str (actionMapGet s))
  | v => .ok v

/-- The `normalized_action` step of `process` (lines 28-31): applied only
when the `action` key is present. -/
def normalizeActionOpt : Option JVal → Except PyErr (Option JVal)
  | none => .ok none
  | some a => (normalizeActionE a).map some

/-- The derived fields of the dict returned by `InventoryProcessor.process`.
The copied-through input keys and the `processing` metadata block
(`processed_at`, `kafka_metadata`) carry no claim and are not repeated here. -/
structure ProcessedEvent where
  action : Option JVal
  normalized_action : Option JVal
  quantity_abs : ℚ
  quantity_direction : String
  quantity_normalized : ℚ
  timestamp_parsed : ℚ
  business_context : BusinessCtx
  total_value : Option ℚ
  deriving DecidableEq, Repr

/-- The `total_value` step of `process` (lines 55-59):
`quantity_abs * float(unit_price)` when the `unit_price` key is present,
propagating a `float()` raise. -/
def totalValueCalc (qabs : ℚ) : Option JVal → Except PyErr (Option ℚ)
  | none => .ok none
  | some up => do
    let upv ← pyFloat up
    pure (some (qabs * upv))

/-- `InventoryProcessor.process` (`inventory_processor.py`, lines 17-68),
with the raising steps in source order: the action-mapping lookup (line 29,
`TypeError` for an unhashable action), `quantity_abs =
abs(float(data.get("quantity", 0)))` (line 34), the `stock_out` sign rule,
timestamp parsing (line 46, raising through `fromtimestamp` for an
out-of-range numeric timestamp), business context, and `total_value =
quantity_abs * float(unit_price)` when `unit_price` is present (lines
56-59). A `.error` result models the call raising. -/
def processInventory (iso : String → Option ℚ) (now : ℚ) (e : RawEvent) :
    Except PyErr ProcessedEvent := do
  let na ← normalizeActionOpt e.action
  let q ← pyFloat ((e.quantity).getD (.num 0))
  let qabs := |q|
  let isStockOut := e.action = some (.str "stock_out")
  let tparsed ← parseTimestampJ iso now e.timestamp
  let total ← totalValueCalc qabs e.unit_price
  return { action := e.action
           normalized_action := na
           quantity_abs := qabs
           quantity_direction := if isStockOut then "negative" else "positive"
           quantity_normalized := if isStockOut then -|q| else |q|
           timestamp_parsed := tparsed
           business_context := getBusinessContext tparsed
           total_value := total }

/-! ## TimeWindow (`aggregators/base_aggregator.py`) -/

/-- `TimeWindow` from `base_aggregator.py`: a deque of `(timestamp, data)`
pairs, front (list head) = oldest side (`popleft`). Timestamps are rational
epoch seconds, the datum type is a parameter. -/
structure TimeWindow (α : Type) where
  window_size : ℚ
  data : List (ℚ × α)
  deriving DecidableEq, Repr

/-- `TimeWindow._cleanup_old_data`: pop entries from the front while the
front entry's timestamp is `< current_time - window_size`. The `while` loop
stops at the first entry that is not older, which is exactly `dropWhile`. -/
def TimeWindow.cleanupOldData {α : Type} (w : TimeWindow α) (current : ℚ) : TimeWindow α :=
  { w with data := w.data.dropWhile (fun ent => decide (ent.1 < current - w.window_size)) }

/-- `TimeWindow.add`: append `(timestamp, data)` on the right, then run the
cleanup with the just-inserted timestamp as `current_time`. -/
def TimeWindow.add {α : Type} (w : TimeWindow α) (timestamp : ℚ) (x : α) : TimeWindow α :=
  TimeWindow.cleanupOldData { w with data := w.data ++ [(timestamp, x)] } timestamp

/-! ## StorageManager (`storage/storage_manager.py`) -/

/-- First-match association-list lookup: Python `dict[key]` /
`dict.get(key)` over the insertion-ordered pairs. -/
def alookup {β : Type} : List (String × β) → String → Option β
  | [], _ => none
  | (k, v) :: rest, key => if k = key then some v else alookup rest key

/-- Python `dict[key] = value`: replace in place when the key exists
(keeping its position), otherwise append at the end. -/
def ainsert {β : Type} : List (String × β) → String → β → List (String × β)
  | [], k, v => [(k, v)]
  | (k', v') :: rest, k, v =>
    if k' = k then (k, v) :: rest else (k', v') :: ainsert rest k v

/-- Python truthiness of an optional string: `None` and `""` are falsy. -/
def truthyStr : Option String → Bool
  | none => false
  | some s => !s.isEmpty

/-- Whether the first list is an initial run of the second. -/
def runAt : List Char → List Char → Bool
  | [], _ => true
  | _ :: _, [] => false
  | n :: ns, h :: hs => n = h && runAt ns hs

/-- Whether the first list occurs as a contiguous run inside the second. -/
def occursIn : List Char → List Char → Bool
  | ns, [] => ns.isEmpty
  | ns, h :: hs => runAt ns (h :: hs) || occursIn ns hs

/-- Model of Python's `needle in hay.lower()` for an optional string field
with `''` as the absent-key default. -/
def strInLower (needle : String) (hay : Option String) : Bool :=
  occursIn needle.toList ((hay.getD "").toList.map Char.toLower)

/-- The record fields that `StorageManager._infer_data_type` and the storage
adapters inspect, typed per the spec's record schema (§3, §4.7): string
values, `none` for an absent key. -/
structure SRecord where
  event_type : Option String
  severity : Option String
  data_type : Option String
  source : Option String
  level : Option String
  message : Option String
  metric_name : Option String
  measurement : Option String
  deriving DecidableEq, Repr

/-- `StorageManager._infer_data_type` (lines 258-272): the first matching
rule wins; `'metric_name' in data` is key presence, `data.get('severity')`
is truthiness, the `in` tests are substring tests on the lower-cased field
with `''` as the absent-key default. -/
def inferDataType (r : SRecord) : String :=
  if r.metric_name.isSome || r.measurement.isSome then "metrics"
  else if strInLower "alert" r.event_type || truthyStr r.severity then "alerts"
  else if strInLower "aggregated" r.data_type then "aggregated"
  else if strInLower "performance" r.source then "performance"
  else if truthyStr r.level || truthyStr r.message then "logs"
  else "events"

/-- `StorageManager.routing_rules` as set in `__init__`. -/
def defaultRoutingRules : List (String × List String) :=
  [("metrics", ["influxdb"]),
   ("logs", ["elasticsearch"]),
   ("alerts", ["elasticsearch", "clickhouse"]),
   ("events", ["clickhouse"]),
   ("aggregated", ["clickhouse"]),
   ("performance", ["influxdb", "clickhouse"])]

/-- `StorageManager._get_target_adapters`: routing-table lookup with
`['clickhouse']` as the default for an unknown data type. -/
def getTargetAdapters (rules : List (String × List String)) (data_type : String) :
    List String :=
  (alookup rules data_type).getD ["clickhouse"]

/-- The errors a storage adapter may raise (`base_storage.py`):
`ConnectionError`, `WriteError`, or the generic `StorageError`. -/
inductive StorageErr where
  | connectionError
  | writeError
  | genericError
  deriving DecidableEq, Repr

/-- A `StorageManager` instance: the initialized adapters (name ↦ the
adapter's `store` behaviour, `.error` modelling a raise) and the routing
table. Connection state and logging do not affect `store_data`'s value. -/
structure StorageManagerM where
  adapters : List (String × (SRecord → Except StorageErr Bool))
  routing : List (String × List String)

/-- The data type `store_data` uses: the explicit argument unless it is
falsy (`None` or `""`), in which case `_infer_data_type` runs. -/
def effectiveDataType (r : SRecord) (data_type : Option String) : String :=
  match data_type with
  | some s => if s = "" then inferDataType r else s
  | none => inferDataType r

/-- `StorageManager._store_to_adapter`: run the adapter's `store`; a raised
exception is caught and becomes `False`. -/
def storeToAdapter (f : SRecord → Except StorageErr Bool) (r : SRecord) : Bool :=
  match f r with
  | .ok b => b
  | .error _ => false

/-- `StorageManager.store_data` (lines 119-160). The result dict, in
Python's insertion order: unavailable target adapters are recorded `False`
during the dispatch loop, then each awaited task fills in its adapter's
result, exceptions (already absorbed in `storeToAdapter`, and caught again
by the `await` wrapper) becoming `False`. -/
def storeData (m : StorageManagerM) (r : SRecord) (data_type : Option String) :
    List (String × Bool) :=
  let targets := getTargetAdapters m.routing (effectiveDataType r data_type)
  if targets.isEmpty then []
  else
    let missing := (targets.filter (fun n => (alookup m.adapters n).isNone)).map
      (fun n => (n, false))
    let tasks := targets.filterMap
      (fun n => (alookup m.adapters n).map (fun f => (n, storeToAdapter f r)))
    missing ++ tasks

/-- The boolean `store_data` reports for one adapter name: `False` when the
adapter is not initialized, otherwise its `store` result with a raise
absorbed as `False`. -/
def adapterOutcome (m : StorageManagerM) (name : String) (r : SRecord) : Bool :=
  match alookup m.adapters name with
  | none => false
  | some f => storeToAdapter f r

/-! ## AlertManager (`monitoring/alerting/alert_manager.py`) -/

/-- `AlertSeverity` enum. -/
inductive AlertSeverity where
  | info
  | warning
  | error
  | critical
  deriving DecidableEq, Repr

/-- The `severity_levels` dict in `AlertManager._send_notifications`
(lines 355-360). The `.get(_, default)` fallbacks there are dead because
the enum is total, so the plain mapping is the faithful model. -/
def sevLevel : AlertSeverity → ℕ
  | .info => 0
  | .warning => 1
  | .error => 2
  | .critical => 3

/-- `AlertStatus` enum. -/
inductive AlertStatus where
  | active
  | resolved
  | acknowledged
  deriving DecidableEq, Repr

/-- An `Alert` object. `Alert.__init__` sets `status = ACTIVE` and leaves
the acknowledgement/resolution stamps `None`; metadata defaults to the
empty dict. -/
structure Alert where
  alert_id : String
  title : String
  description : String
  severity : AlertSeverity
  source : String
  timestamp : ℚ
  metadata : List (String × String)
  status : AlertStatus
  acknowledged_by : Option String
  acknowledged_at : Option ℚ
  resolved_at : Option ℚ
  deriving DecidableEq, Repr

/-- `Alert.__init__` with the wall clock passed explicitly. -/
def mkAlert (alert_id title description : String) (severity : AlertSeverity)
    (source : String) (metadata : Option (List (String × String))) (now : ℚ) : Alert :=
  { alert_id := alert_id
    title := title
    description := description
    severity := severity
    source := source
    timestamp := now
    metadata := metadata.getD []
    status := .active
    acknowledged_by := none
    acknowledged_at := none
    resolved_at := none }

/-- The `AlertManager` state: the configured minimum notification severity
(config key `min_notification_severity`, default `warning`), the configured
channels (identified by name; their network send behaviour does not affect
the manager's state), the `active_alerts` dict, and a log of dispatched
sends `(channel, alert_id)` recording each `channel.send(alert)` task the
manager creates. -/
structure AMState where
  min_notification_severity : AlertSeverity
  channels : List String
  active_alerts : List (String × Alert)
  sent : List (String × String)
  deriving Repr

/-- The default of `config.get('min_notification_severity', 'warning')`. -/
def defaultMinSeverity : AlertSeverity := .warning

/-- `AlertManager._send_notifications` (lines 350-381), as the list of
`channel.send(alert)` dispatches it creates: nothing when the alert's
severity level is below the configured minimum, otherwise one send per
configured channel. -/
def sendNotifications (st : AMState) (a : Alert) : List (String × String) :=
  if sevLevel a.severity < sevLevel st.min_notification_severity then []
  else st.channels.map (fun c => (c, a.alert_id))

/-- `AlertManager.create_alert` (lines 320-348): when `alert_id` is present
in `active_alerts` with status `ACTIVE`, return the existing alert and
change nothing; otherwise build a fresh `Alert`, store it under the id, and
dispatch notifications for it. Returns the alert together with the new
manager state. -/
def createAlert (st : AMState) (alert_id title description : String)
    (severity : AlertSeverity) (source : String)
    (metadata : Option (List (String × String))) (now : ℚ) : Alert × AMState :=
  let proceed : Alert × AMState :=
    let a := mkAlert alert_id title description severity source metadata now
    let st1 := { st with active_alerts := ainsert st.active_alerts alert_id a }
    (a, { st1 with sent := st1.sent ++ sendNotifications st1 a })
  match alookup st.active_alerts alert_id with
  | some existing => if existing.status = .active then (existing, st) else proceed
  | none => proceed

/-- `Alert.acknowledge`. -/
def Alert.acknowledge (a : Alert) (user : String) (now : ℚ) : Alert :=
  { a with
      status := .acknowledged
      acknowledged_by := some user
      acknowledged_at := some now }

/-- `AlertManager.acknowledge_alert` (lines 383-393): mutate the stored
alert in place (it stays in `active_alerts`); `False` when the id is
unknown. -/
def acknowledgeAlert (st : AMState) (alert_id user : String) (now : ℚ) :
    Bool × AMState :=
  match alookup st.active_alerts alert_id with
  | none => (false, st)
  | some a =>
    let upd := ainsert st.active_alerts alert_id (a.acknowledge user now)
    (true, { st with active_alerts := upd })

/-- `AlertManager.resolve_alert` (lines 395-408): stamp the alert resolved
(the stamped object leaves the manager state immediately, so the stamp is
unobservable here) and delete the entry from `active_alerts`; `False` when
the id is unknown. -/
def resolveAlert (st : AMState) (alert_id : String) : Bool × AMState :=
  match alookup st.active_alerts alert_id with
  | none => (false, st)
  | some _ =>
    let upd := st.active_alerts.filter (fun p => decide (p.1 ≠ alert_id))
    (true, { st with active_alerts := upd })

/-! ## InventoryEnricher (`enrichers/inventory_enricher.py`) -/

/-- Month (1..12) of a civil UTC date given as days since 1970-01-01,
following the standard era-decomposition calendar algorithm; models
`datetime.fromtimestamp(t, utc).month`. -/
def monthOfDay (day : ℤ) : ℤ :=
  let z := day + 719468
  let era := Int.fdiv z 146097
  let doe := z - era * 146097
  let yoe := Int.fdiv (doe - Int.fdiv doe 1460 + Int.fdiv doe 36524 - Int.fdiv doe 146096) 365
  let doy := doe - (365 * yoe + Int.fdiv yoe 4 - Int.fdiv yoe 100)
  let mp := Int.fdiv (5 * doy + 2) 153
  mp + (if mp < 10 then 3 else -9)

/-- Month of a rational epoch instant. -/
def monthOfEpoch (t : ℚ) : ℤ :=
  monthOfDay (Int.fdiv ⌊t⌋ 86400)

/-- The dict built by `InventoryEnricher._generate_mock_item_details`. -/
structure ItemDetails where
  name : String
  category : String
  supplier : String
  unit_cost : ℚ
  weight : ℚ
  perishable : Bool
  high_value : Bool
  reorder_point : ℤ
  max_stock : ℤ
  deriving DecidableEq, Repr

/-- The dict built by `InventoryEnricher._generate_mock_location_details`;
the Python key `type` is rendered `loc_type`. -/
structure LocationDetails where
  zone : String
  loc_type : String
  capacity : ℤ
  temperature_controlled : Bool
  automated : Bool
  deriving DecidableEq, Repr

/-- The dict built by `InventoryEnricher._classify_inventory_event`. -/
structure Classification where
  event_type : String
  volume_category : String
  value_category : String
  urgency : String
  deriving DecidableEq, Repr

/-- The dict built by `InventoryEnricher._assess_risk`. -/
structure RiskAssessment where
  score : ℤ
  level : String
  factors : List String
  deriving DecidableEq, Repr

/-- The dict built by `InventoryEnricher._get_seasonal_context`: the empty
dict when no parsed timestamp is available, otherwise season/month/demand. -/
inductive SeasonalCtx where
  | empty
  | ctx (season : String) (month : ℤ) (seasonal_demand : String)
  deriving DecidableEq, Repr

/-- The fields of an enriched inventory event dict that the enricher and
the anomaly detector read. `none` models an absent key. The nested
`business_context` dict is flattened to its two consulted keys
(`bc_is_business_hours`, `bc_is_weekend`); `none` covers both a missing
`business_context` dict and a missing key inside it, matching
`data.get("business_context", {}).get(key, default)`. `timestamp_parsed`
holds a `datetime` in the source, which is always truthy, so `isSome` is
its truthiness. -/
structure EEvent where
  action : Option String
  item_id : Option String
  location_id : Option String
  normalized_action : Option String
  quantity_abs : Option ℚ
  quantity_normalized : Option ℚ
  total_value : Option ℚ
  timestamp_parsed : Option ℚ
  bc_is_business_hours : Option Bool
  bc_is_weekend : Option Bool
  item_details : Option ItemDetails
  location_details : Option LocationDetails
  classification : Option Classification
  risk_assessment : Option RiskAssessment
  seasonal_context : Option SeasonalCtx
  deriving DecidableEq, Repr

/-- An `EEvent` with every key absent, for building concrete events. -/
def emptyEvent : EEvent :=
  ⟨none, none, none, none, none, none, none, none, none, none, none, none,
   none, none, none⟩

/-- `InventoryEnricher._generate_mock_item_details`: deterministic stand-in
data keyed by `hash(item_id) % 1000` (Python `%` on a possibly negative
hash matches `Int.emod`'s nonnegative result). The `round(_, k)` calls are
identities on these exact decimal values. -/
def mockItemDetails (pyhash : Option String → ℤ) (item_id : String) : ItemDetails :=
  let hv := pyhash (some item_id) % 1000
  let categories := ["Electronics", "Clothing", "Food", "Tools", "Books"]
  let suppliers := ["Supplier_A", "Supplier_B", "Supplier_C", "Supplier_D"]
  { name := "Item_" ++ item_id
    category := categories.getD (hv % 5).toNat ""
    supplier := suppliers.getD (hv % 4).toNat ""
    unit_cost := (10 + hv % 100 : ℤ)
    weight := (1 : ℚ) / 10 + ((hv % 50 : ℤ) : ℚ) / 10
    perishable := hv % 4 = 0
    high_value := hv % 10 = 0
    reorder_point := 50 + hv % 100
    max_stock := 500 + hv % 1000 }

/-- `InventoryEnricher._generate_mock_location_details`. -/
def mockLocationDetails (pyhash : Option String → ℤ) (location_id : String) :
    LocationDetails :=
  let hv := pyhash (some location_id) % 100
  let zones := ["A", "B", "C", "D"]
  let types := ["storage", "picking", "shipping", "receiving"]
  { zone := zones.getD (hv % 4).toNat ""
    loc_type := types.getD (hv % 4).toNat ""
    capacity := 1000 + hv % 5000
    temperature_controlled := hv % 5 = 0
    automated := hv % 3 = 0 }

/-- `InventoryEnricher._get_item_details` with no shared cache configured
(`redis_client = None`, the constructor default used by the consumer).
Returns `None` exactly when `item_id` is falsy; otherwise the generated
stand-in. The in-process cache only ever holds values this generator
produced for the same key, so it is extensionally transparent. -/
def itemLookup (pyhash : Option String → ℤ) : Option String → Option ItemDetails
  | some s => if s.isEmpty then none else some (mockItemDetails pyhash s)
  | none => none

/-- `InventoryEnricher._get_location_details`, analogous to `itemLookup`. -/
def locLookup (pyhash : Option String → ℤ) : Option String → Option LocationDetails
  | some s => if s.isEmpty then none else some (mockLocationDetails pyhash s)
  | none => none

/-- `InventoryEnricher._get_volume_category`:
thresholds on `data.get("quantity_abs", 0)`. -/
def volumeCategory (e : EEvent) : String :=
  let q := e.quantity_abs.getD 0
  if q < 10 then "low"
  else if q < 100 then "medium"
  else if q < 1000 then "high"
  else "bulk"

/-- `InventoryEnricher._get_value_category`. `if not total_value` is Python
truthiness: a missing key and a zero value both yield `"unknown"`. -/
def valueCategory (e : EEvent) : String :=
  match e.total_value with
  | none => "unknown"
  | some tv =>
    if tv = 0 then "unknown"
    else if tv < 100 then "low"
    else if tv < 1000 then "medium"
    else if tv < 10000 then "high"
    else "critical"

/-- `InventoryEnricher._get_urgency_level`. -/
def urgencyLevel (e : EEvent) : String :=
  let perishable := match e.item_details with
    | some d => d.perishable
    | none => false
  let highValue := match e.item_details with
    | some d => d.high_value
    | none => false
  if perishable then "high"
  else if highValue then "high"
  else if e.action = some "stock_out" then "medium"
  else "low"

/-- `InventoryEnricher._classify_inventory_event`. -/
def classifyEvent (e : EEvent) : Classification :=
  { event_type := e.normalized_action.getD "unknown"
    volume_category := volumeCategory e
    value_category := valueCategory e
    urgency := urgencyLevel e }

/-- `InventoryEnricher._assess_risk`, reading the `classification` the
enricher set just before calling it. -/
def assessRisk (e : EEvent) : RiskAssessment :=
  let highValue := match e.item_details with
    | some d => d.high_value
    | none => false
  let bulk : Bool := match e.classification with
    | some c => decide (c.volume_category = "bulk")
    | none => false
  let afterHours := !(e.bc_is_business_hours.getD false)
  let perishable := match e.item_details with
    | some d => d.perishable
    | none => false
  let factors :=
    (if highValue then ["high_value_item"] else []) ++
    (if bulk then ["bulk_transaction"] else []) ++
    (if afterHours then ["after_hours"] else []) ++
    (if perishable then ["perishable_item"] else [])
  let score : ℤ :=
    (if highValue then 3 else 0) + (if bulk then 2 else 0) +
    (if afterHours then 1 else 0) + (if perishable then 1 else 0)
  { score := score
    level := if 5 ≤ score then "high" else if 3 ≤ score then "medium" else "low"
    factors := factors }

/-- `InventoryEnricher._get_seasonal_context`. -/
def seasonalContext (e : EEvent) : SeasonalCtx :=
  match e.timestamp_parsed with
  | none => .empty
  | some t =>
    let month := monthOfEpoch t
    let season :=
      if month = 12 ∨ month = 1 ∨ month = 2 then "winter"
      else if month = 3 ∨ month = 4 ∨ month = 5 then "spring"
      else if month = 6 ∨ month = 7 ∨ month = 8 then "summer"
      else "fall"
    let category := match e.item_details with
      | some d => d.category
      | none => ""
    let demand :=
      if season = "winter" ∧ category = "Clothing" then "high"
      else if season = "summer" ∧ category = "Electronics" then "high"
      else "normal"
    .ctx season month demand

/-- `InventoryEnricher.enrich` (lines 14-42), in source order: item details
(set only when the lookup returned a truthy dict), location details,
classification (computed on the dict that already holds the details),
risk assessment (computed after classification), seasonal context. -/
def enrich (pyhash : Option String → ℤ) (e : EEvent) : EEvent :=
  let e1 := match itemLookup pyhash e.item_id with
    | some d => { e with item_details := some d }
    | none => e
  let e2 := match locLookup pyhash e1.location_id with
    | some d => { e1 with location_details := some d }
    | none => e1
  let e3 := { e2 with classification := some (classifyEvent e2) }
  let e4 := { e3 with risk_assessment := some (assessRisk e3) }
  { e4 with seasonal_context := some (seasonalContext e4) }

/-! ## InventoryAnomalyDetector (`anomaly_detection/base_detector.py`,
`anomaly_detection/inventory_anomaly_detector.py`) -/

/-- An `AnomalyResult`. The free-form `details` diagnostic dict carries no
claim and is not modelled. `severity` defaults to `"medium"` in
`AnomalyResult.__init__`. -/
structure AnomalyResult where
  is_anomaly : Bool
  confidence : ℚ
  anomaly_type : String
  severity : String
  deriving DecidableEq, Repr

/-- The result `detect` returns when no detector fired
(`is_anomaly=False, confidence=0.0, anomaly_type="none"`, default
severity). -/
def noAnomalyResult : AnomalyResult :=
  { is_anomaly := false, confidence := 0, anomaly_type := "none", severity := "medium" }

/-- Detector state: the FIFO sample window (`deque(maxlen=window_size)`,
default 1000), oldest first. The unused-by-`detect` `time_series` and
`pattern_cache` members are not modelled. -/
structure DetectorState where
  window_size : ℕ
  data_window : List EEvent
  deriving Repr

/-- `BaseAnomalyDetector._add_to_window`: deque append honouring `maxlen`
(evicting from the left when full). -/
def pushWindow (s : DetectorState) (e : EEvent) : List EEvent :=
  let l := s.data_window ++ [e]
  if s.window_size < l.length then l.drop (l.length - s.window_size) else l

/-- `BaseAnomalyDetector._matches_pattern`: same `action` and same
`item_id` (Python `None == None` is `True`, matching `Option` equality). -/
def matchesPattern (d e : EEvent) : Bool :=
  d.action = e.action && d.item_id = e.item_id

/-- Squared z-score, the exact image of `_calculate_z_score`'s
`z = |v - μ| / σ` under squaring: the source consults `z` only through the
comparisons `z > 3`, `z > 5` and the clamp `min(z/3, 1.0)` evaluated under
the guard `z > 3` (where it is exactly `1.0`), and `z > c ↔ z² > c²` for
`c ≥ 0`. Returns 0 for fewer than 3 samples or zero variance, as the
source does. `σ` is the population standard deviation (`numpy.std`). -/
def zScoreSq (v : ℚ) (hist : List ℚ) : ℚ :=
  if hist.length < 3 then 0
  else
    let n : ℚ := hist.length
    let μ := hist.sum / n
    let var := (hist.map (fun x => (x - μ) ^ 2)).sum / n
    if var = 0 then 0 else (v - μ) ^ 2 / var

/-- `BaseAnomalyDetector._detect_volume_anomaly` on `quantity_abs`:
z-score of the current value against the same-pattern history in the
window (which already contains the current event); fires above `z > 3`
with confidence `min(z/3, 1.0) = 1` and severity `high` iff `z > 5`. -/
def detectVolume (ws : List EEvent) (e : EEvent) : Option AnomalyResult :=
  match e.quantity_abs with
  | none => none
  | some v =>
    let hist := ws.filterMap (fun d => if matchesPattern d e then d.quantity_abs else none)
    if hist.length < 5 then none
    else
      let zsq := zScoreSq v hist
      if 9 < zsq then
        some { is_anomaly := true, confidence := 1, anomaly_type := "volume_anomaly",
               severity := if 25 < zsq then "high" else "medium" }
      else none

/-- `BaseAnomalyDetector._get_after_hours_frequency`: the fraction of
same-action window entries outside business hours (`0.5` with no sample);
the inner default is `True` (`.get("is_business_hours", True)`). -/
def afterHoursFrequency (ws : List EEvent) (activity : String) : ℚ :=
  let same := ws.filter (fun d => d.action = some activity)
  if same.length = 0 then 1 / 2
  else
    let after := same.filter (fun d => !(d.bc_is_business_hours.getD true))
    (after.length : ℚ) / (same.length : ℚ)

/-- `BaseAnomalyDetector._detect_time_based_anomaly`: outside business
hours (falsy-as-false read of the context) with a historical after-hours
fraction below 0.1, fire confidence 0.7, severity medium. -/
def detectTimeBased (ws : List EEvent) (e : EEvent) : Option AnomalyResult :=
  match e.timestamp_parsed with
  | none => none
  | some _ =>
    if e.bc_is_business_hours.getD false then none
    else
      let activity := e.action.getD "unknown"
      if afterHoursFrequency ws activity < 1 / 10 then
        some { is_anomaly := true, confidence := 7 / 10, anomaly_type := "unusual_timing",
               severity := "medium" }
      else none

/-- The placeholder `_get_historical_frequencies` list of hourly counts. -/
def mockHourlyCounts : List ℚ := [5, 7, 3, 8, 6, 4, 9, 2, 6, 7]

/-- `BaseAnomalyDetector._detect_frequency_anomaly`: count same-pattern
events in the last hour of the window and z-score them against the
placeholder hourly counts; fires above `z > 3` with confidence
`min(z/3, 1.0) = 1`, severity medium. -/
def detectFrequency (ws : List EEvent) (e : EEvent) : Option AnomalyResult :=
  match e.timestamp_parsed with
  | none => none
  | some cur =>
    let recent := ws.filter (fun d =>
      matchesPattern d e &&
        match d.timestamp_parsed with
        | some ts => decide (cur - 3600 < ts)
        | none => false)
    if mockHourlyCounts.length < 5 then none
    else
      let zsq := zScoreSq (recent.length : ℚ) mockHourlyCounts
      if 9 < zsq then
        some { is_anomaly := true, confidence := 1, anomaly_type := "frequency_anomaly",
               severity := "medium" }
      else none

/-- `InventoryAnomalyDetector._get_current_stock_level`: a per-item
baseline `hash(item_id) % 1000 + 100` plus the running sum of signed
quantities for that item in the window, floored at 0. -/
def currentStockLevel (pyhash : Option String → ℤ) (ws : List EEvent)
    (item_id : Option String) : ℚ :=
  let changes := ((ws.filter (fun d => d.item_id = item_id)).map
    (fun d => d.quantity_normalized.getD 0)).sum
  let baseline : ℤ := pyhash item_id % 1000 + 100
  max ((baseline : ℚ) + changes) 0

/-- `InventoryAnomalyDetector._detect_negative_stock`: on `stock_out`, if
the projected stock falls below −10, fire confidence 0.9, severity high. -/
def detectNegativeStock (pyhash : Option String → ℤ) (ws : List EEvent)
    (e : EEvent) : Option AnomalyResult :=
  if e.action ≠ some "stock_out" then none
  else
    let quantity := e.quantity_normalized.getD 0
    let cur := currentStockLevel pyhash ws e.item_id
    if cur + quantity < -10 then
      some { is_anomaly := true, confidence := 9 / 10,
             anomaly_type := "negative_stock_risk", severity := "high" }
    else none

/-- `InventoryAnomalyDetector._detect_rapid_depletion`: on `stock_out`
with positive estimated stock, if the stock-out total of the last hour
exceeds 80% of it, fire with confidence = the depletion ratio clamped to
1, severity high. -/
def detectRapidDepletion (pyhash : Option String → ℤ) (ws : List EEvent)
    (e : EEvent) : Option AnomalyResult :=
  match e.timestamp_parsed with
  | none => none
  | some cur =>
    if e.action ≠ some "stock_out" then none
    else
      let depl := (ws.filter (fun d =>
        d.item_id = e.item_id && d.action = some "stock_out" &&
          match d.timestamp_parsed with
          | some ts => decide (cur - 3600 < ts)
          | none => false)).map (fun d => d.quantity_abs.getD 0)
      let total := depl.sum
      let stock := currentStockLevel pyhash ws e.item_id
      if 0 < stock then
        let rate := total / stock
        if 8 / 10 < rate then
          some { is_anomaly := true, confidence := min rate 1,
                 anomaly_type := "rapid_stock_depletion", severity := "high" }
        else none
      else none

/-- `InventoryAnomalyDetector._detect_unusual_location_activity`: with a
truthy location and item id and at least 5 located window entries for the
item, fire when the current location's historical frequency is below
`1 - 0.95`, confidence `1 - freq`, severity medium. (The source's
`1 - 0.95` is a float a hair above 1/20; the exact 1/20 is used here, which
agrees except on a knife-edge frequency no claim touches.) -/
def detectUnusualLocation (ws : List EEvent) (e : EEvent) : Option AnomalyResult :=
  if !truthyStr e.location_id || !truthyStr e.item_id then none
  else
    let histLocs := (ws.filter (fun d =>
      d.item_id = e.item_id && d.location_id.isSome)).map (fun d => d.location_id)
    if histLocs.length < 5 then none
    else
      let freq := ((histLocs.filter (fun l => l = e.location_id)).length : ℚ) /
        (histLocs.length : ℚ)
      if freq < 1 - 95 / 100 then
        some { is_anomaly := true, confidence := 1 - freq,
               anomaly_type := "unusual_location", severity := "medium" }
      else none

/-- `InventoryAnomalyDetector._detect_high_value_anomalies`: a high-value
item whose risk factors contain at least two of the three listed high-risk
factors fires confidence 0.8, severity high. -/
def detectHighValue (e : EEvent) : Option AnomalyResult :=
  let highValue := match e.item_details with
    | some d => d.high_value
    | none => false
  if !highValue then none
  else
    let factors := (e.risk_assessment.map (fun r => r.factors)).getD []
    let present := factors.filter (fun f =>
      f = "after_hours" || f = "bulk_transaction" || f = "unusual_location")
    if 2 ≤ present.length then
      some { is_anomaly := true, confidence := 8 / 10,
             anomaly_type := "high_value_risk_combination", severity := "high" }
    else none

/-- `InventoryAnomalyDetector._detect_supplier_anomalies`: weekend
`stock_in` from a supplier whose last 10 deliveries show a weekend rate
below 0.1 fires confidence 0.7, severity low. -/
def detectSupplier (ws : List EEvent) (e : EEvent) : Option AnomalyResult :=
  if e.action ≠ some "stock_in" then none
  else
    let supplierOpt := e.item_details.map (fun d => d.supplier)
    if !truthyStr supplierOpt then none
    else
      let recentDel := ws.filter (fun d =>
        d.action = some "stock_in" && (d.item_details.map (fun x => x.supplier)) = supplierOpt)
      if recentDel.length < 3 then none
      else
        match e.timestamp_parsed with
        | none => none
        | some _ =>
          let last10 := recentDel.drop (recentDel.length - 10)
          let weekend := (last10.filter (fun d => d.bc_is_weekend.getD false)).length
          let denom : ℚ := min recentDel.length 10
          if e.bc_is_weekend.getD false && decide ((weekend : ℚ) / denom < 1 / 10) then
            some { is_anomaly := true, confidence := 7 / 10,
                   anomaly_type := "unusual_supplier_delivery_timing", severity := "low" }
          else none

/-- `InventoryAnomalyDetector._detect_inventory_specific_anomalies`:
the five inventory detectors in source order. -/
def inventorySpecific (pyhash : Option String → ℤ) (ws : List EEvent)
    (e : EEvent) : List AnomalyResult :=
  (detectNegativeStock pyhash ws e).toList ++
  (detectRapidDepletion pyhash ws e).toList ++
  (detectUnusualLocation ws e).toList ++
  (detectHighValue e).toList ++
  (detectSupplier ws e).toList

/-- The `anomalies` list `InventoryAnomalyDetector.detect` accumulates,
in detector order (volume, time, frequency, then the inventory-specific
five), each entry a detector hit with `is_anomaly=True`. All detectors run
on the window that already contains the current event
(`_add_to_window(data)` happens first). -/
def detectHits (pyhash : Option String → ℤ) (s : DetectorState) (e : EEvent) :
    List AnomalyResult :=
  let ws := pushWindow s e
  (detectVolume ws e).toList ++
  (detectTimeBased ws e).toList ++
  (detectFrequency ws e).toList ++
  inventorySpecific pyhash ws e

/-- Python `max(xs, key=lambda x: x.confidence)` as a left fold: the
running best is replaced only on a strictly greater confidence, so the
first of several tied maxima wins. -/
def maxByConf (best : AnomalyResult) : List AnomalyResult → AnomalyResult
  | [] => best
  | x :: xs => maxByConf (if best.confidence < x.confidence then x else best) xs

/-- `InventoryAnomalyDetector.detect` (lines 18-55): push the event into
the sample window, collect the detector hits, and return the new state
together with the no-anomaly result (empty hits) or
`max(anomalies, key=confidence)`. -/
def detect (pyhash : Option String → ℤ) (s : DetectorState) (e : EEvent) :
    DetectorState × AnomalyResult :=
  let s' := { s with data_window := pushWindow s e }
  let r := match detectHits pyhash s e with
    | [] => noAnomalyResult
    | x :: xs => maxByConf x xs
  (s', r)

/-! ## Concrete fixtures used by witnesses and counterexamples -/

/-- An ISO parser stub for closed evaluations (never used on the numeric
timestamps the fixtures carry). -/
def isoNone : String → Option ℚ := fun _ => none

/-- Scenario 2 of the spec's end-to-end section: a `stock_out` of 10. -/
def rawStockOutW : RawEvent :=
  { action := some (.str "stock_out"), quantity := some (.num 10),
    unit_price := none, timestamp := some (.num 1710151200),
    item_id := some "I1", location_id := none }

/-- The processed event the pipeline produces for `rawStockOutW`. -/
def processedStockOutW : ProcessedEvent :=
  (processInventory isoNone 0 rawStockOutW).toOption.getD
    ⟨none, none, 0, "", 0, 0, ⟨0, 0, false, false, ""⟩, none⟩

/-- A well-formed JSON inventory event with a coercible quantity but a
numeric `timestamp` one second past Python's `datetime` range. -/
def rawHugeTimestampW : RawEvent :=
  { action := some (.str "stock_in"), quantity := some (.num 1),
    unit_price := none, timestamp := some (.num 253402300800),
    item_id := some "I1", location_id := none }

/-- A well-formed JSON inventory event whose `action` is a JSON
array/object (unhashable in Python). -/
def rawCompoundActionW : RawEvent :=
  { action := some .compound, quantity := some (.num 1),
    unit_price := none, timestamp := some (.num 0),
    item_id := some "I1", location_id := none }

/-- A prior window entry for the detector fixtures: a `stock_out` of 5 of
item `I` at epoch second 7000, during business hours. -/
def priorEventW : EEvent :=
  { emptyEvent with
      action := some "stock_out", item_id := some "I",
      quantity_abs := some 5, quantity_normalized := some (-5),
      timestamp_parsed := some 7000, bc_is_business_hours := some true }

/-- The incoming detector event: same shape, at epoch second 10000. -/
def curEventW : EEvent := { priorEventW with timestamp_parsed := some 10000 }

/-- A detector that has already seen twelve copies of `priorEventW`. -/
def detStateW : DetectorState :=
  { window_size := 1000, data_window := List.replicate 12 priorEventW }

/-- A concrete stand-in for Python's process-seeded string hash. -/
def hashZero : Option String → ℤ := fun _ => 0

/-- A search (Elasticsearch) adapter whose `store` succeeds. -/
def searchOkAdapter : SRecord → Except StorageErr Bool := fun _ => .ok true

/-- A warehouse (ClickHouse) adapter whose `store` raises `WriteError`. -/
def warehouseRaiseAdapter : SRecord → Except StorageErr Bool := fun _ => .error .writeError

/-- The storage manager of the spec's partial-failure scenario: default
routing, search succeeding, warehouse raising. -/
def storageFixture : StorageManagerM :=
  { adapters := [("elasticsearch", searchOkAdapter), ("clickhouse", warehouseRaiseAdapter)],
    routing := defaultRoutingRules }

/-- A second manager with the default routing but a different adapter set. -/
def storageFixtureB : StorageManagerM :=
  { adapters := [("influxdb", searchOkAdapter)], routing := defaultRoutingRules }

/-- An alert-typed record (truthy `severity` triggers the `alerts` rule). -/
def alertRecordW : SRecord :=
  ⟨some "alert", some "critical", none, none, none, none, none, none⟩

/-- An alert manager with the default `warning` threshold, two channels,
and no alerts yet. -/
def amStateW : AMState :=
  { min_notification_severity := .warning, channels := ["email", "slack"],
    active_alerts := [], sent := [] }

/-- `amStateW` after creating alert `A1` (critical) and acknowledging it. -/
def ackStateW : AMState :=
  (acknowledgeAlert (createAlert amStateW "A1" "T" "D" .critical "S" none 0).2
    "A1" "ops" 5).2

/-- The acknowledged `A1` alert stored in `ackStateW`. -/
def ackAlertW : Alert :=
  (alookup ackStateW.active_alerts "A1").getD (mkAlert "" "" "" .info "" none 0)

/-! ## Helper lemmas -/

/-- In a `≤`-sorted timestamped list, everything surviving the old-entry
`dropWhile` is at or after the cutoff. -/
theorem mem_dropWhileOld_ge {α : Type} (c : ℚ) :
    ∀ l : List (ℚ × α), List.Pairwise (fun p q => p.1 ≤ q.1) l →
      ∀ p ∈ l.dropWhile (fun ent => decide (ent.1 < c)), c ≤ p.1 := by
  intro l
  induction l with
  | nil => intro _ p hp; simp [List.dropWhile] at hp
  | cons a rest ih =>
    intro hps p hp
    rw [List.pairwise_cons] at hps
    by_cases ha : a.1 < c
    · rw [List.dropWhile_cons_of_pos (by simpa using ha)] at hp
      exact ih hps.2 p hp
    · rw [List.dropWhile_cons_of_neg (by simpa using ha)] at hp
      rcases List.mem_cons.mp hp with h | h
      · subst h; exact le_of_not_lt ha
      · exact le_trans (le_of_not_lt ha) (hps.1 p h)

/-- `alookup` finds an entry of the left list first. -/
theorem alookup_append_some {β : Type} {l₁ : List (String × β)} {a : String} {v : β}
    (l₂ : List (String × β)) (h : alookup l₁ a = some v) :
    alookup (l₁ ++ l₂) a = some v := by
  induction l₁ with
  | nil => simp [alookup] at h
  | cons p rest ih =>
    obtain ⟨k, w⟩ := p
    simp only [List.cons_append, alookup] at h ⊢
    by_cases hk : k = a
    · rw [if_pos hk] at h ⊢; exact h
    · rw [if_neg hk] at h ⊢; exact ih h

/-- `alookup` skips a left list that does not contain the key. -/
theorem alookup_append_none {β : Type} {l₁ : List (String × β)} {a : String}
    (l₂ : List (String × β)) (h : alookup l₁ a = none) :
    alookup (l₁ ++ l₂) a = alookup l₂ a := by
  induction l₁ with
  | nil => simp
  | cons p rest ih =>
    obtain ⟨k, w⟩ := p
    simp only [List.cons_append, alookup] at h ⊢
    by_cases hk : k = a
    · rw [if_pos hk] at h; exact absurd h (by simp)
    · rw [if_neg hk] at h ⊢; exact ih h

/-- Looking up an inserted key returns the inserted value. -/
theorem alookup_ainsert_self {β : Type} (l : List (String × β)) (k : String) (v : β) :
    alookup (ainsert l k v) k = some v := by
  induction l with
  | nil => simp [ainsert, alookup]
  | cons p rest ih =>
    obtain ⟨k', w⟩ := p
    simp only [ainsert]
    by_cases hk : k' = k
    · rw [if_pos hk]; simp [alookup]
    · rw [if_neg hk]
      simp only [alookup]
      rw [if_neg hk]
      exact ih

/-! ## Claims

The section-local `semireducible` marking below only re-enables definitional
unfolding of the rational-arithmetic primitives for `decide`/`rfl`
evaluation of the concrete fixtures; it does not change any statement. -/

section ClaimProofs

attribute [local semireducible] Rat.add Rat.sub Rat.mul Rat.inv Rat.ofScientific

/-- **C1.** For every raw event with a numeric `quantity` `q` for which
`InventoryProcessor.process` returns a processed event, that event has
`quantity_abs = |q|`; its `quantity_normalized` is `-|q|` when the event's
`action` is `"stock_out"`, and `+|q|` for every other `action` value
(the other valid actions, unknown values, or no action at all). -/
theorem C1_quantity_normalization (iso : String → Option ℚ) (now : ℚ)
    (e : RawEvent) (q : ℚ) (p : ProcessedEvent)
    (hq : e.quantity = some (.num q))
    (hok : processInventory iso now e = .ok p) :
    (e.action = some (.str "stock_out") →
      p.quantity_abs = |q| ∧ p.quantity_normalized = -|q|) ∧
    (e.action ≠ some (.str "stock_out") →
      p.quantity_abs = |q| ∧ p.quantity_normalized = |q|) := by
  unfold processInventory at hok
  rw [hq] at hok
  have hqf : pyFloat ((some (JVal.num q)).getD (JVal.num 0)) = Except.ok q := rfl
  rw [hqf] at hok
  cases hna : normalizeActionOpt e.action with
  | error err =>
    rw [hna] at hok
    simp [bind, Except.bind] at hok
  | ok na =>
    rw [hna] at hok
    simp only [bind, Except.bind, pure, Except.pure] at hok
    cases hts : parseTimestampJ iso now e.timestamp with
    | error err =>
      rw [hts] at hok
      simp at hok
    | ok t =>
      rw [hts] at hok
      simp only [bind, Except.bind, pure, Except.pure] at hok
      cases hup : e.unit_price with
      | none =>
        rw [hup] at hok
        simp only [totalValueCalc, bind, Except.bind, pure, Except.pure] at hok
        injection hok with hok
        subst hok
        constructor
        · intro ha; simp [ha]
        · intro ha; simp [ha]
      | some up =>
        rw [hup] at hok
        simp only [totalValueCalc, bind, Except.bind, pure, Except.pure] at hok
        cases hpv : pyFloat up with
        | error err2 => rw [hpv] at hok; simp at hok
        | ok v =>
          rw [hpv] at hok
          simp only [] at hok
          injection hok with hok
          subst hok
          constructor
          · intro ha; simp [ha]
          · intro ha; simp [ha]

/-- Witness for C1 at the spec's stock-out scenario (quantity 10). -/
theorem C1_quantity_normalization_witness :
    processedStockOutW.quantity_abs = |(10 : ℚ)| ∧
    processedStockOutW.quantity_normalized = -|(10 : ℚ)| :=
  (C1_quantity_normalization isoNone 0 rawStockOutW 10 processedStockOutW
    rfl rfl).1 rfl

/-- **C2, counterexample.** The no-stale-entry property does not hold for
arbitrary (out-of-order) insertion timestamps: with `window_size = 10`,
after `add 100`, `add 5`, `add 100` the entry stamped 5 is still stored,
although `5 < 100 - 10` — `_cleanup_old_data` only pops from the front,
and the front entry (timestamp 100) is not old. -/
theorem C2_counterexample :
    ((5 : ℚ), 1) ∈ ((((TimeWindow.mk (α := ℕ) 10 []).add 100 0).add 5 1).add 100 2).data ∧
    (5 : ℚ) < 100 - 10 := by
  constructor
  · decide
  · norm_num

/-- **C2 (amended).** For insertion timestamps that arrive in monotone
non-decreasing order — i.e. from a window whose stored sequence is sorted
and whose entries are all at or before the new timestamp `t` — `add t x`
leaves no entry with timestamp `< t - window_size`, keeps the sequence
monotone non-decreasing, and keeps the front entry the oldest. (The claim's
unconditional version of the first part is refuted by
`C2_counterexample`.) -/
theorem C2_window_eviction_monotone {α : Type} (w : TimeWindow α) (t : ℚ) (x : α)
    (hsorted : List.Pairwise (fun p q => p.1 ≤ q.1) w.data)
    (hmono : ∀ p ∈ w.data, p.1 ≤ t) :
    (∀ p ∈ (w.add t x).data, t - w.window_size ≤ p.1) ∧
    List.Pairwise (fun p q => p.1 ≤ q.1) (w.add t x).data ∧
    (∀ hd p, (w.add t x).data.head? = some hd → p ∈ (w.add t x).data → hd.1 ≤ p.1) := by
  have hpw : List.Pairwise (fun p q : ℚ × α => p.1 ≤ q.1) (w.data ++ [(t, x)]) := by
    rw [List.pairwise_append]
    refine ⟨hsorted, List.pairwise_singleton _ _, ?_⟩
    intro a ha b hb
    rw [List.mem_singleton] at hb
    subst hb
    exact hmono a ha
  have hdata : (w.add t x).data =
      (w.data ++ [(t, x)]).dropWhile (fun ent => decide (ent.1 < t - w.window_size)) := rfl
  have hsorted' : List.Pairwise (fun p q : ℚ × α => p.1 ≤ q.1) (w.add t x).data := by
    rw [hdata]
    exact hpw.sublist (List.dropWhile_sublist _)
  refine ⟨?_, hsorted', ?_⟩
  · intro p hp
    rw [hdata] at hp
    exact mem_dropWhileOld_ge _ _ hpw p hp
  · intro hd p hhd hp
    cases hres : (w.add t x).data with
    | nil => rw [hres] at hhd; simp at hhd
    | cons a tl =>
      rw [hres] at hhd hp
      simp only [List.head?_cons, Option.some.injEq] at hhd
      subst hhd
      rw [hres] at hsorted'
      rw [List.pairwise_cons] at hsorted'
      rcases List.mem_cons.mp hp with h | h
      · subst h; exact le_refl _
      · exact hsorted'.1 p h

/-- Witness for C2 (amended): window `[(1,0),(2,1)]`, size 10, `add 12`:
the surviving front entry `(2,1)` is at or after the cutoff `12 - 10`. -/
theorem C2_window_eviction_monotone_witness :
    ((TimeWindow.mk (α := ℕ) 10 [(1, 0), (2, 1)]).add 12 5).data.head? = some (2, 1) ∧
    (12 : ℚ) - 10 ≤ ((2 : ℚ), 1).1 :=
  ⟨by decide,
   (C2_window_eviction_monotone (TimeWindow.mk (α := ℕ) 10 [(1, 0), (2, 1)]) 12 5
      (by decide) (by decide)).1 (2, 1) (by decide)⟩

/-- `process` raises uncaught out of `_parse_timestamp`'s numeric branch
for an epoch one second past the `datetime` range, with a perfectly
coercible quantity. -/
theorem processInventory_raises_past_datetime_range :
    processInventory isoNone 0 rawHugeTimestampW = .error .valueError := rfl

/-- `process` raises `TypeError` from the `action_mappings.get` lookup for
an unhashable (array/object) `action` value. -/
theorem processInventory_raises_unhashable_action :
    processInventory isoNone 0 rawCompoundActionW = .error .typeError := rfl

/-- `alookup` on a constant-`false` key list finds a member key. -/
theorem alookup_map_const_false (l : List String) (a : String) (h : a ∈ l) :
    alookup (l.map (fun n => (n, false))) a = some false := by
  induction l with
  | nil => cases h
  | cons b rest ih =>
    simp only [List.map_cons, alookup]
    by_cases hb : b = a
    · rw [if_pos hb]
    · rw [if_neg hb]
      exact ih ((List.mem_cons.mp h).resolve_left (fun he => hb he.symm))

/-- `alookup` misses the constant-`false` list built from a filter the key
fails. -/
theorem alookup_filter_map_none (p : String → Bool) (l : List String) (a : String)
    (hp : p a = false) :
    alookup ((l.filter p).map (fun n => (n, false))) a = none := by
  induction l with
  | nil => rfl
  | cons b rest ih =>
    by_cases hb : p b = true
    · rw [List.filter_cons_of_pos hb]
      simp only [List.map_cons, alookup]
      by_cases hba : b = a
      · subst hba; rw [hb] at hp; cases hp
      · rw [if_neg hba]; exact ih
    · rw [List.filter_cons_of_neg hb]; exact ih

/-- `alookup` on the dispatched-task entries of `storeData`: a target with
an initialized adapter maps to that adapter's absorbed `store` outcome. -/
theorem alookup_tasks (m : StorageManagerM) (rc : SRecord) :
    ∀ (ts : List String) (a : String) (f : SRecord → Except StorageErr Bool),
      a ∈ ts → alookup m.adapters a = some f →
      alookup (ts.filterMap
          (fun n => (alookup m.adapters n).map (fun g => (n, storeToAdapter g rc)))) a
        = some (storeToAdapter f rc) := by
  intro ts
  induction ts with
  | nil => intro a f h; cases h
  | cons b rest ih =>
    intro a f hmem hf
    rw [List.filterMap_cons]
    by_cases hba : b = a
    · subst hba
      rw [hf]
      simp only [Option.map_some']
      simp [alookup]
    · cases hb : alookup m.adapters b with
      | none =>
        simp only [Option.map_none']
        exact ih a f ((List.mem_cons.mp hmem).resolve_left (fun he => hba he.symm)) hf
      | some g =>
        simp only [Option.map_some']
        simp only [alookup]
        rw [if_neg hba]
        exact ih a f ((List.mem_cons.mp hmem).resolve_left (fun he => hba he.symm)) hf

/-- `storeData` always equals the unavailable-adapter entries followed by
the dispatched-task entries (the `if not target_adapters: return {}`
branch coincides with this on an empty target list). -/
theorem storeData_eq (m : StorageManagerM) (rc : SRecord) (dty : Option String) :
    storeData m rc dty =
      ((getTargetAdapters m.routing (effectiveDataType rc dty)).filter
          (fun n => (alookup m.adapters n).isNone)).map (fun n => (n, false)) ++
      (getTargetAdapters m.routing (effectiveDataType rc dty)).filterMap
          (fun n => (alookup m.adapters n).map (fun g => (n, storeToAdapter g rc))) := by
  unfold storeData
  simp only []
  cases hemp : (getTargetAdapters m.routing (effectiveDataType rc dty)).isEmpty
  · rw [if_neg Bool.false_ne_true]
  · rw [if_pos rfl, List.isEmpty_iff.mp hemp]
    rfl

/-- **C7.** `StorageManager.store_data` reports one boolean per target
adapter of the record's (given or inferred) data type: each target's entry
is its own adapter's absorbed outcome (`False` for an unavailable adapter
or a raising `store`, its returned boolean otherwise), every reported key
is a target, and the call itself never raises (it is a total function in
this model). In particular, in the spec's partial-failure scenario — an
alerts record, search (`elasticsearch`) succeeding, warehouse
(`clickhouse`) raising `WriteError` — the result is
`{elasticsearch: true, clickhouse: false}`. -/
theorem C7_store_partial_failure :
    (∀ (m : StorageManagerM) (rc : SRecord) (dty : Option String),
      (∀ a ∈ getTargetAdapters m.routing (effectiveDataType rc dty),
        alookup (storeData m rc dty) a = some (adapterOutcome m a rc)) ∧
      (∀ p ∈ storeData m rc dty,
        p.1 ∈ getTargetAdapters m.routing (effectiveDataType rc dty))) ∧
    storeData storageFixture alertRecordW none =
      [("elasticsearch", true), ("clickhouse", false)] := by
  constructor
  · intro m rc dty
    constructor
    · intro a ha
      rw [storeData_eq]
      cases hf : alookup m.adapters a with
      | some f =>
        rw [alookup_append_none _ (alookup_filter_map_none _ _ a (by rw [hf]; rfl))]
        rw [alookup_tasks m rc _ a f ha hf]
        unfold adapterOutcome
        rw [hf]
      | none =>
        have hmem : a ∈ (getTargetAdapters m.routing (effectiveDataType rc dty)).filter
            (fun n => (alookup m.adapters n).isNone) := by
          rw [List.mem_filter]
          exact ⟨ha, by rw [hf]; rfl⟩
        rw [alookup_append_some _ (alookup_map_const_false _ a hmem)]
        unfold adapterOutcome
        rw [hf]
    · intro p hp
      rw [storeData_eq] at hp
      rcases List.mem_append.mp hp with h | h
      · rcases List.mem_map.mp h with ⟨n, hn, he⟩
        subst he
        exact (List.mem_filter.mp hn).1
      · rcases List.mem_filterMap.mp h with ⟨n, hn, he⟩
        cases hg : alookup m.adapters n with
        | none => rw [hg] at he; cases he
        | some g =>
          rw [hg] at he
          simp only [Option.map_some', Option.some.injEq] at he
          subst he
          exact hn
  · decide

/-- Witness for C7: in the partial-failure scenario the warehouse
adapter's entry is its absorbed raise, i.e. `False`. -/
theorem C7_store_partial_failure_witness :
    alookup (storeData storageFixture alertRecordW none) "clickhouse"
      = some (adapterOutcome storageFixture "clickhouse" alertRecordW) :=
  (C7_store_partial_failure.1 storageFixture alertRecordW none).1 "clickhouse"
    (by decide)

/-- **C8.** The adapter list `_get_target_adapters(_infer_data_type(record))`
is a deterministic function of the record's content alone: any two managers
carrying the default routing rules compute the same list for the same
record, whatever their adapter sets or other state. -/
theorem C8_router_determinism (m1 m2 : StorageManagerM)
    (h1 : m1.routing = defaultRoutingRules) (h2 : m2.routing = defaultRoutingRules)
    (r : SRecord) :
    getTargetAdapters m1.routing (inferDataType r)
      = getTargetAdapters m2.routing (inferDataType r) := by
  rw [h1, h2]

/-- Witness for C8 on two managers with different adapter sets. -/
theorem C8_router_determinism_witness :
    getTargetAdapters storageFixture.routing (inferDataType alertRecordW)
      = getTargetAdapters storageFixtureB.routing (inferDataType alertRecordW) :=
  C8_router_determinism storageFixture storageFixtureB rfl rfl alertRecordW

/-- Shape of `create_alert` when the id is not in `active_alerts`: a fresh
active alert is stored and the gated notifications are dispatched. -/
theorem createAlert_fresh (st : AMState) (id t d src : String) (sv : AlertSeverity)
    (md : Option (List (String × String))) (n : ℚ)
    (hfresh : alookup st.active_alerts id = none) :
    createAlert st id t d sv src md n =
      (mkAlert id t d sv src md n,
       { st with
           active_alerts := ainsert st.active_alerts id (mkAlert id t d sv src md n),
           sent := st.sent ++
             (if sevLevel sv < sevLevel st.min_notification_severity then []
              else st.channels.map (fun c => (c, id))) }) := by
  unfold createAlert
  rw [hfresh]
  rfl

/-- Shape of `create_alert` when the id is stored with status `ACTIVE`:
the stored alert is returned and nothing changes. -/
theorem createAlert_active_dedup (st : AMState) (id t d src : String)
    (sv : AlertSeverity) (md : Option (List (String × String))) (n : ℚ) (a : Alert)
    (hex : alookup st.active_alerts id = some a) (ha : a.status = .active) :
    createAlert st id t d sv src md n = (a, st) := by
  unfold createAlert
  rw [hex]
  simp [ha]

/-- Shape of `create_alert` when the id is stored with a status other than
`ACTIVE`: the entry is overwritten by a fresh active alert and the gated
notifications are dispatched again. -/
theorem createAlert_nonactive_overwrites (st : AMState) (id t d src : String)
    (sv : AlertSeverity) (md : Option (List (String × String))) (n : ℚ) (a : Alert)
    (hex : alookup st.active_alerts id = some a) (ha : a.status ≠ .active) :
    createAlert st id t d sv src md n =
      (mkAlert id t d sv src md n,
       { st with
           active_alerts := ainsert st.active_alerts id (mkAlert id t d sv src md n),
           sent := st.sent ++
             (if sevLevel sv < sevLevel st.min_notification_severity then []
              else st.channels.map (fun c => (c, id))) }) := by
  unfold createAlert
  rw [hex]
  simp only [if_neg ha]
  rfl

/-- **C5.** Calling `create_alert` twice with the same `alert_id` (starting
from a state without that id, so the first call stores a fresh alert, which
is created with `status = ACTIVE` and stays active in between): the second
call returns the very alert the first call created, the whole manager state
is unchanged by the second call, exactly one alert is stored under the id
and it is active, and the channel dispatches happen during the first call
only — one per configured channel (none at all when the severity is gated
below the threshold). -/
theorem C5_create_alert_idempotent (st0 : AMState)
    (id t1 d1 src1 t2 d2 src2 : String) (sv1 sv2 : AlertSeverity)
    (md1 md2 : Option (List (String × String))) (n1 n2 : ℚ)
    (hfresh : alookup st0.active_alerts id = none) :
    (createAlert (createAlert st0 id t1 d1 sv1 src1 md1 n1).2 id t2 d2 sv2 src2 md2 n2).1
        = (createAlert st0 id t1 d1 sv1 src1 md1 n1).1 ∧
    (createAlert (createAlert st0 id t1 d1 sv1 src1 md1 n1).2 id t2 d2 sv2 src2 md2 n2).2
        = (createAlert st0 id t1 d1 sv1 src1 md1 n1).2 ∧
    alookup (createAlert st0 id t1 d1 sv1 src1 md1 n1).2.active_alerts id
        = some (createAlert st0 id t1 d1 sv1 src1 md1 n1).1 ∧
    (createAlert st0 id t1 d1 sv1 src1 md1 n1).1.status = .active ∧
    (createAlert st0 id t1 d1 sv1 src1 md1 n1).2.sent
        = st0.sent ++
            (if sevLevel sv1 < sevLevel st0.min_notification_severity then []
             else st0.channels.map (fun c => (c, id))) := by
  rw [createAlert_fresh st0 id t1 d1 src1 sv1 md1 n1 hfresh]
  have hlook : alookup
      (ainsert st0.active_alerts id (mkAlert id t1 d1 sv1 src1 md1 n1)) id
      = some (mkAlert id t1 d1 sv1 src1 md1 n1) := alookup_ainsert_self _ _ _
  rw [createAlert_active_dedup _ id t2 d2 src2 sv2 md2 n2 _ hlook rfl]
  exact ⟨rfl, rfl, hlook, rfl, rfl⟩

/-- Witness for C5: two creations of `A1` (critical) on the two-channel
fixture manager; the second call returns the first call's alert, which is
active. -/
theorem C5_create_alert_idempotent_witness :
    (createAlert (createAlert amStateW "A1" "T" "D" .critical "S" none 0).2
        "A1" "T2" "D2" .info "S2" none 1).1
      = (createAlert amStateW "A1" "T" "D" .critical "S" none 0).1 ∧
    (createAlert amStateW "A1" "T" "D" .critical "S" none 0).1.status = .active := by
  have h := C5_create_alert_idempotent amStateW "A1" "T" "D" "S" "T2" "D2" "S2"
    .critical .info none none 0 1 rfl
  exact ⟨h.1, h.2.2.2.1⟩

/-- **C6.** Severity gating on a fresh `create_alert`: an alert strictly
below the configured `min_notification_severity` dispatches no notification
to any channel (the send log is unchanged); an alert at or above the
threshold dispatches one send to every configured channel. -/
theorem C6_severity_gating (st0 : AMState) (id t d src : String)
    (sv : AlertSeverity) (md : Option (List (String × String))) (n : ℚ)
    (hfresh : alookup st0.active_alerts id = none) :
    (sevLevel sv < sevLevel st0.min_notification_severity →
      (createAlert st0 id t d sv src md n).2.sent = st0.sent) ∧
    (sevLevel st0.min_notification_severity ≤ sevLevel sv →
      (createAlert st0 id t d sv src md n).2.sent
        = st0.sent ++ st0.channels.map (fun c => (c, id))) := by
  rw [createAlert_fresh st0 id t d src sv md n hfresh]
  constructor
  · intro hlt
    simp [if_pos hlt]
  · intro hge
    simp [if_neg (not_lt.mpr hge)]

/-- Witness for C6 on the fixture manager (threshold `warning`): an `info`
alert sends nothing, a `critical` alert sends to both channels. -/
theorem C6_severity_gating_witness :
    (createAlert amStateW "A2" "T" "D" .info "S" none 0).2.sent = amStateW.sent ∧
    (createAlert amStateW "A3" "T" "D" .critical "S" none 0).2.sent
      = amStateW.sent ++ amStateW.channels.map (fun c => (c, "A3")) := by
  constructor
  · exact (C6_severity_gating amStateW "A2" "T" "D" "S" .info none 0 rfl).1
      (by decide)
  · exact (C6_severity_gating amStateW "A3" "T" "D" "S" .critical none 0 rfl).2
      (by decide)

/-- **C10.** When the stored alert for `alert_id` is `acknowledged` (it
stays in the map until resolved), a new `create_alert` with that id does
not return the existing alert: it builds a fresh `ACTIVE` alert with the
acknowledgement stamps cleared, overwrites the map entry, and dispatches
the (severity-gated) notifications again — the dedup short-circuit applies
only while the stored status is `ACTIVE`. -/
theorem C10_ack_not_deduplicated (st0 : AMState) (id t d src : String)
    (sv : AlertSeverity) (md : Option (List (String × String))) (n : ℚ) (a0 : Alert)
    (hex : alookup st0.active_alerts id = some a0)
    (hack : a0.status = .acknowledged) :
    (createAlert st0 id t d sv src md n).1 ≠ a0 ∧
    (createAlert st0 id t d sv src md n).1.status = .active ∧
    (createAlert st0 id t d sv src md n).1.acknowledged_by = none ∧
    (createAlert st0 id t d sv src md n).1.acknowledged_at = none ∧
    alookup (createAlert st0 id t d sv src md n).2.active_alerts id
      = some (createAlert st0 id t d sv src md n).1 ∧
    (createAlert st0 id t d sv src md n).2.sent
      = st0.sent ++
          (if sevLevel sv < sevLevel st0.min_notification_severity then []
           else st0.channels.map (fun c => (c, id))) := by
  have hne : a0.status ≠ AlertStatus.active := by
    rw [hack]; intro h; cases h
  rw [createAlert_nonactive_overwrites st0 id t d src sv md n a0 hex hne]
  refine ⟨?_, rfl, rfl, rfl, alookup_ainsert_self _ _ _, rfl⟩
  intro h
  have hs := congrArg Alert.status h
  rw [hack] at hs
  simp [mkAlert] at hs

/-- Witness for C10: create `A1`, acknowledge it, create it again — the
new alert is active and distinct from the acknowledged one. -/
theorem C10_ack_not_deduplicated_witness :
    (createAlert ackStateW "A1" "T3" "D3" .critical "S3" none 9).1 ≠ ackAlertW ∧
    (createAlert ackStateW "A1" "T3" "D3" .critical "S3" none 9).1.status = .active ∧
    (createAlert ackStateW "A1" "T3" "D3" .critical "S3" none 9).1.acknowledged_by
      = none := by
  have h := C10_ack_not_deduplicated ackStateW "A1" "T3" "D3" "S3" .critical none 9
    ackAlertW (by decide) (by decide)
  exact ⟨h.1, h.2.1, h.2.2.1⟩

/-- **C9.** Enrichment is idempotent: a second `enrich` recomputes every
computed field (`item_details`, `location_details`, `classification`,
`risk_assessment`, `seasonal_context`) from the same unchanged base fields
and deterministic lookups, so `enrich (enrich e) = enrich e` — for any
per-process string hash. -/
theorem C9_enrich_idempotent (pyhash : Option String → ℤ) (e : EEvent) :
    enrich pyhash (enrich pyhash e) = enrich pyhash e := by
  cases hi : itemLookup pyhash e.item_id with
  | none =>
    cases hl : locLookup pyhash e.location_id with
    | none =>
      simp [enrich, hi, hl, classifyEvent, volumeCategory, valueCategory,
        urgencyLevel, assessRisk, seasonalContext]
    | some dl =>
      simp [enrich, hi, hl, classifyEvent, volumeCategory, valueCategory,
        urgencyLevel, assessRisk, seasonalContext]
  | some di =>
    cases hl : locLookup pyhash e.location_id with
    | none =>
      simp [enrich, hi, hl, classifyEvent, volumeCategory, valueCategory,
        urgencyLevel, assessRisk, seasonalContext]
    | some dl =>
      simp [enrich, hi, hl, classifyEvent, volumeCategory, valueCategory,
        urgencyLevel, assessRisk, seasonalContext]

/-- Python's `max(..., key=confidence)` keeps the running best and replaces
it only on a strictly greater key, so the result is the *first* element of
maximal confidence: either it is the initial element and nothing beats it,
or the list splits at the result with everything earlier strictly smaller
and everything later no greater. -/
theorem maxByConf_first_argmax :
    ∀ (l : List AnomalyResult) (b : AnomalyResult),
      (maxByConf b l = b ∧ ∀ h ∈ l, h.confidence ≤ b.confidence) ∨
      (∃ l1 l2, l = l1 ++ maxByConf b l :: l2 ∧
        b.confidence < (maxByConf b l).confidence ∧
        (∀ h ∈ l1, h.confidence < (maxByConf b l).confidence) ∧
        (∀ h ∈ l2, h.confidence ≤ (maxByConf b l).confidence)) := by
  intro l
  induction l with
  | nil => intro b; left; exact ⟨rfl, by simp⟩
  | cons x xs ih =>
    intro b
    by_cases hx : b.confidence < x.confidence
    · have hred : maxByConf b (x :: xs) = maxByConf x xs := by
        simp [maxByConf, if_pos hx]
      rcases ih x with ⟨heq, hall⟩ | ⟨l1, l2, hsplit, hlt, hl1, hl2⟩
      · right
        refine ⟨[], xs, ?_, ?_, by simp, ?_⟩
        · rw [hred, heq]; rfl
        · rw [hred, heq]; exact hx
        · rw [hred, heq]; exact hall
      · right
        refine ⟨x :: l1, l2, ?_, ?_, ?_, ?_⟩
        · rw [hred]; rw [List.cons_append]; rw [← hsplit]
        · rw [hred]; exact lt_trans hx hlt
        · intro h hh
          rw [hred]
          rcases List.mem_cons.mp hh with he | hh'
          · subst he; exact hlt
          · exact hl1 h hh'
        · intro h hh; rw [hred]; exact hl2 h hh
    · have hred : maxByConf b (x :: xs) = maxByConf b xs := by
        simp [maxByConf, if_neg hx]
      rcases ih b with ⟨heq, hall⟩ | ⟨l1, l2, hsplit, hlt, hl1, hl2⟩
      · left
        constructor
        · rw [hred, heq]
        · intro h hh
          rcases List.mem_cons.mp hh with he | hh'
          · subst he; exact le_of_not_lt hx
          · exact hall h hh'
      · right
        refine ⟨x :: l1, l2, ?_, ?_, ?_, ?_⟩
        · rw [hred]; rw [List.cons_append]; rw [← hsplit]
        · rw [hred]; exact hlt
        · intro h hh
          rw [hred]
          rcases List.mem_cons.mp hh with he | hh'
          · subst he; exact lt_of_le_of_lt (le_of_not_lt hx) hlt
          · exact hl1 h hh'
        · intro h hh; rw [hred]; exact hl2 h hh

/-- **C4, counterexample.** The returned anomaly is *not* severity-tie-broken:
on `curEventW` against `detStateW` the hits are the frequency anomaly
(confidence 1, severity medium) followed by the rapid-depletion anomaly
(confidence 1, severity high); `max(..., key=confidence)` returns the
first, so `detect` yields the medium hit although a high-severity hit of
equal (maximal) confidence exists — the claim would require the
high-severity one. -/
theorem C4_counterexample :
    (detect hashZero detStateW curEventW).2.anomaly_type = "frequency_anomaly" ∧
    (detect hashZero detStateW curEventW).2.severity = "medium" ∧
    (detect hashZero detStateW curEventW).2.confidence = 1 ∧
    ({ is_anomaly := true, confidence := 1,
       anomaly_type := "rapid_stock_depletion",
       severity := "high" } : AnomalyResult) ∈ detectHits hashZero detStateW curEventW := by
  decide

/-- **C4 (amended).** `detect` returns, among the detector hits, the one
with maximal confidence, and on confidence ties the *earliest* hit in
detector order — severity is never consulted (`C4_counterexample` refutes
the claimed severity tie-break). With no hits it returns the no-anomaly
result. -/
theorem C4_first_max_confidence (pyhash : Option String → ℤ)
    (s : DetectorState) (e : EEvent) :
    (detectHits pyhash s e = [] → (detect pyhash s e).2 = noAnomalyResult) ∧
    (∀ x xs, detectHits pyhash s e = x :: xs →
      ∃ l1 l2, x :: xs = l1 ++ (detect pyhash s e).2 :: l2 ∧
        (∀ h ∈ l1, h.confidence < (detect pyhash s e).2.confidence) ∧
        (∀ h ∈ l2, h.confidence ≤ (detect pyhash s e).2.confidence)) := by
  constructor
  · intro hnil
    unfold detect
    rw [hnil]
  · intro x xs hcons
    have hr : (detect pyhash s e).2 = maxByConf x xs := by
      unfold detect
      rw [hcons]
    rw [hr]
    rcases maxByConf_first_argmax xs x with ⟨heq, hall⟩ | ⟨l1, l2, hsplit, hlt, hl1, hl2⟩
    · refine ⟨[], xs, ?_, by simp, ?_⟩
      · rw [heq]; rfl
      · rw [heq]; exact hall
    · refine ⟨x :: l1, l2, ?_, ?_, ?_⟩
      · rw [List.cons_append]; rw [← hsplit]
      · intro h hh
        rcases List.mem_cons.mp hh with he | hh'
        · subst he; exact hlt
        · exact hl1 h hh'
      · exact hl2

/-- Witness for C4 (amended): an event producing no hits yields the
no-anomaly result, and the counterexample fixture's returned hit is indeed
one of its detector hits. -/
theorem C4_first_max_confidence_witness :
    (detect hashZero { window_size := 1000, data_window := [] } emptyEvent).2
        = noAnomalyResult ∧
    (detect hashZero detStateW curEventW).2 ∈ detectHits hashZero detStateW curEventW := by
  constructor
  · exact (C4_first_max_confidence hashZero
      { window_size := 1000, data_window := [] } emptyEvent).1 (by decide)
  · have hhits : detectHits hashZero detStateW curEventW =
        { is_anomaly := true, confidence := 1, anomaly_type := "frequency_anomaly",
          severity := "medium" } ::
        [{ is_anomaly := true, confidence := 1, anomaly_type := "rapid_stock_depletion",
           severity := "high" }] := by decide
    obtain ⟨l1, l2, hsp, -, -⟩ :=
      (C4_first_max_confidence hashZero detStateW curEventW).2 _ _ hhits
    rw [hhits, hsp]
    exact List.mem_append.mpr (Or.inr (List.mem_cons_self _ _))

end ClaimProofs

end RTP
